import Mathlib

/-!
Shallow embedding of the AssemblyAI speech-to-text utility
(src/speech_to_text.py, src/gui_select_file.py).

The Python program is orchestration glue: it builds a transcription
configuration, performs one blocking call to the remote service, formats the
structured result into text, writes the text to a timestamped file and (per
its documentation) copies it to the clipboard.  We embed each method of the
`SpeechToText` class as a pure Lean function.  Observable side effects
(the remote service call, file writes, clipboard writes) are made explicit as
an `Effect` trace returned alongside the result; exceptions become `Except`.
The remote service itself is an external input, modelled as a function
argument `service : String → TranscriptionConfig → Transcript`; the process
environment and the wall clock are likewise passed in as explicit inputs.
-/

namespace AAI

/-- Python truthiness of an optional string: `None` and `""` are falsy. -/
def pyTruthy : Option String → Bool
  | none => false
  | some s => !s.isEmpty

/-- Rendering of an optional string inside a Python f-string:
`None` prints as "None". -/
def pyStrOpt : Option String → String
  | none => "None"
  | some s => s

/-- Python `a or b` on optional strings (used for `api_key or os.getenv(...)`). -/
def pyOr (a b : Option String) : Option String :=
  if pyTruthy a then a else b

/-- An element of the transcription result as the code accesses it
(duck-typed: both `aai.Sentence` and `aai.Utterance` expose `.text`, and
`.speaker` which for a plain sentence may be absent). -/
structure SpeechItem where
  speaker : Option String
  text : String
deriving DecidableEq, Repr, Inhabited

/-- `aai.TranscriptStatus` as gated on by the code (`error` vs. anything else). -/
inductive TranscriptStatus where
  | completed
  | error
deriving DecidableEq, Repr, Inhabited

/-- The structured transcript object returned by the remote service:
status, error message, `get_sentences()` view, `.utterances` view and the
optional `.summary`. -/
structure Transcript where
  status : TranscriptStatus
  error : Option String
  sentences : List SpeechItem
  utterances : List SpeechItem
  summary : Option String
deriving DecidableEq, Repr, Inhabited

/-- `aai.TranscriptionConfig` as assembled by `SpeechToText.configuration`:
keys that the code only sets conditionally are `Option`s (absent = not in
`config_params`). -/
structure TranscriptionConfig where
  language_code : String
  speaker_labels : Bool
  summarization : Option Bool
  summary_model : Option String
  summary_type : Option String
deriving DecidableEq, Repr, Inhabited

/-- Python exceptions raised by the embedded code paths. -/
inductive PyError where
  | fileNotFound (msg : String)
  | runtimeError (msg : String)
  | attributeError (msg : String)
deriving DecidableEq, Repr, Inhabited

/-- Observable side effects of a run, in program order. -/
inductive Effect where
  | serviceCall (path : String) (config : TranscriptionConfig)
  | fileWrite (path : String) (content : String)
  | clipboardWrite (text : String)
deriving DecidableEq, Repr, Inhabited

def Effect.isFileWrite : Effect → Bool
  | Effect.fileWrite _ _ => true
  | _ => false

def Effect.isClipboardWrite : Effect → Bool
  | Effect.clipboardWrite _ => true
  | _ => false

def Effect.isServiceCall : Effect → Bool
  | Effect.serviceCall _ _ => true
  | _ => false

/-- Paths of the files written in a trace. -/
def writtenPaths (effs : List Effect) : List String :=
  effs.filterMap fun e =>
    match e with
    | Effect.fileWrite p _ => some p
    | _ => none

/-- Split a character list on a separator character (the pieces between
occurrences of `c`, in order; always at least one piece). -/
def splitOnChar (c : Char) : List Char → List (List Char)
  | [] => [[]]
  | x :: xs =>
    let r := splitOnChar c xs
    if x = c then [] :: r
    else
      match r with
      | [] => [[x]]
      | y :: ys => (x :: y) :: ys

/-- Final path component, as `pathlib.PurePath.name` (split on "/"). -/
def pathName (p : String) : String :=
  String.mk ((splitOnChar '/' p.data).getLastD [])

/-- Index of the last '.' in a character list (Python `str.rfind`). -/
def rfindDot (cs : List Char) : Option Nat :=
  match cs.reverse.findIdx? (· = '.') with
  | none => none
  | some j => some (cs.length - 1 - j)

/-- `pathlib.PurePath.stem`: the final component without its suffix; a dot at
position 0 or at the very end does not start a suffix. -/
def pathStem (p : String) : String :=
  let name := pathName p
  let cs := name.data
  match rfindDot cs with
  | some i => if 0 < i ∧ i < cs.length - 1 then String.mk (cs.take i) else name
  | none => name

/-- Class-level defaults of `SpeechToText`. -/
def DEFAULT_LANGUAGE : String := "ru"

def DEFAULT_SPEAKER_LABELS : Bool := true

def DEFAULT_SUMMARIZATION : Bool := false

def DEFAULT_SUMMARIZATION_MODEL : String := "informative"

def DEFAULT_SUMMARIZATION_TYPE : String := "paragraphs"

def DEFAULT_SUMMARIZATION_QUESTION : Option String := none

def TRANSCRIPTION_FOLDER : String := "Transcription"

/-- The state of a `SpeechToText` instance: constructor parameters stored as
attributes plus the mutable result attributes. -/
structure SpeechToText where
  path_to_file : String
  file_name : String
  single_speaker : Bool
  language : String
  speaker_labels : Bool
  summarization : Bool
  summarization_model : String
  summarization_type : String
  summarization_question : Option String
  transcriber_result : Option (List SpeechItem)
  summarization_result : Option String
  transcript : Option Transcript
deriving DecidableEq, Repr, Inhabited

/-- `SpeechToText.__init__`: stores the parameters, derives `file_name` from
the path's stem, then validates that the file exists
(`os.path.exists`, modelled by membership in the filesystem listing `fs`);
if not, raises `FileNotFoundError`.  The constructor performs no writes, so
its effect trace is always empty (second component). -/
def SpeechToText.init (fs : List String) (path_to_file language : String)
    (single_speaker speaker_labels summarization : Bool)
    (summarization_model summarization_type : String)
    (summarization_question : Option String) :
    Except PyError SpeechToText × List Effect :=
  let st : SpeechToText :=
    { path_to_file := path_to_file
      file_name := pathStem path_to_file
      single_speaker := single_speaker
      language := language
      speaker_labels := speaker_labels
      summarization := summarization
      summarization_model := summarization_model
      summarization_type := summarization_type
      summarization_question := summarization_question
      transcriber_result := none
      summarization_result := none
      transcript := none }
  if fs.contains path_to_file then
    (Except.ok st, [])
  else
    (Except.error (PyError.fileNotFound ("Audio file not found: " ++ path_to_file)), [])

/-- `SpeechToText(path_to_file)` with every keyword argument left at its
default (as in `main` and `quick_transcribe`). -/
def SpeechToText.initDefault (fs : List String) (path_to_file : String) :
    Except PyError SpeechToText × List Effect :=
  SpeechToText.init fs path_to_file DEFAULT_LANGUAGE false DEFAULT_SPEAKER_LABELS
    DEFAULT_SUMMARIZATION DEFAULT_SUMMARIZATION_MODEL DEFAULT_SUMMARIZATION_TYPE
    DEFAULT_SUMMARIZATION_QUESTION

/-- `SpeechToText.configuration`: resolves the API key (argument, else the
`ASSEMBLYAI_API_KEY` environment variable; Python `or`, so an empty string
does not count), raising `RuntimeError` when absent, and assembles the
`TranscriptionConfig`; summarization keys enter `config_params` only when
`self.summarization` is set. -/
def SpeechToText.configuration (st : SpeechToText)
    (api_key_arg env_key : Option String) :
    Except PyError TranscriptionConfig :=
  let api_key := pyOr api_key_arg env_key
  if pyTruthy api_key then
    Except.ok
      { language_code := st.language
        speaker_labels := st.speaker_labels
        summarization := if st.summarization then some true else none
        summary_model := if st.summarization then some st.summarization_model else none
        summary_type := if st.summarization then some st.summarization_type else none }
  else
    Except.error (PyError.runtimeError
      "API key not found in environment variables or provided as argument.")

/-- `SpeechToText.transcribe`: builds the configuration (no API-key argument
is forwarded), performs the remote call (`Effect.serviceCall`), stores the
transcript and raises `RuntimeError` when its status is `error`. -/
def SpeechToText.transcribe (st : SpeechToText) (env_key : Option String)
    (service : String → TranscriptionConfig → Transcript) :
    Except PyError (SpeechToText × Transcript) × List Effect :=
  match st.configuration none env_key with
  | Except.error e => (Except.error e, [])
  | Except.ok config =>
      let t := service st.path_to_file config
      let st := { st with transcript := some t }
      let effs := [Effect.serviceCall st.path_to_file config]
      match t.status with
      | TranscriptStatus.error =>
          (Except.error (PyError.runtimeError
            ("Transcription failed: " ++ pyStrOpt t.error)), effs)
      | TranscriptStatus.completed => (Except.ok (st, t), effs)

/-- The line rendered for one result item in the file's content section:
plain text in single-speaker mode, `Speaker <id>: <text>` otherwise
(without the trailing newline the file write appends). -/
def contentLine (single_speaker : Bool) (it : SpeechItem) : String :=
  if single_speaker then it.text
  else "Speaker " ++ pyStrOpt it.speaker ++ ": " ++ it.text

/-- The lines of the "TRANSCRIPTION CONTENT" section, one per result item
(the loop over `self.transcriber_result` in `save_to_text_file`). -/
def SpeechToText.contentSection (st : SpeechToText) : List String :=
  (st.transcriber_result.getD []).map (contentLine st.single_speaker)

/-- The 60-character separator bar `"=" * 60`. -/
def bar60 : String := String.mk (List.replicate 60 '=')

/-- Everything `save_to_text_file` writes before the transcription date:
header bars plus the source-file metadata line. -/
def SpeechToText.renderedPre (st : SpeechToText) : String :=
  bar60 ++ "\n" ++ "TRANSCRIPTION\n" ++ bar60 ++ "\n\n"
    ++ "Source file: " ++ st.path_to_file ++ "\n"
    ++ "Transcription date: "

/-- Everything `save_to_text_file` writes after the transcription date:
remaining metadata, the content section, the optional summary section and
the footer. -/
def SpeechToText.renderedPost (st : SpeechToText) : String :=
  "\n"
    ++ "Language: " ++ st.language ++ "\n"
    ++ "Mode: " ++ (if st.single_speaker then "Single speaker" else "Multiple speakers")
    ++ "\n\n"
    ++ bar60 ++ "\n" ++ "TRANSCRIPTION CONTENT\n" ++ bar60 ++ "\n\n"
    ++ String.join (st.contentSection.map (· ++ "\n"))
    ++ (match st.summarization_result with
        | some s => "\n" ++ bar60 ++ "\n" ++ "SUMMARY\n" ++ bar60 ++ "\n\n" ++ s
        | none => "")
    ++ "\n\n" ++ bar60 ++ "\n" ++ "End of transcription\n" ++ bar60 ++ "\n"

/-- The complete text `save_to_text_file` writes, as a function of the
instance state and of the clock reading `nowDate`
(`datetime.now().strftime('%Y-%m-%d %H:%M:%S')`) interpolated into the
metadata. -/
def SpeechToText.renderedFile (st : SpeechToText) (nowDate : String) : String :=
  st.renderedPre ++ (nowDate ++ st.renderedPost)

/-- Output file name `f"{self.file_name}_{timestamp}.txt"`. -/
def outputFilename (file_name timestamp : String) : String :=
  file_name ++ "_" ++ (timestamp ++ ".txt")

/-- `SpeechToText.save_to_text_file`: one file write into
`<home>/Transcription/<stem>_<timestamp>.txt`; `nowStamp` is the clock
reading `datetime.now().strftime("%Y%m%d_%H%M%S")` used in the name and
`nowDate` the one interpolated into the metadata. -/
def SpeechToText.save_to_text_file (st : SpeechToText)
    (nowDate nowStamp home : String) : List Effect :=
  let folder := home ++ "/" ++ TRANSCRIPTION_FOLDER
  [Effect.fileWrite (folder ++ "/" ++ outputFilename st.file_name nowStamp)
    (st.renderedFile nowDate)]

/-- `SpeechToText.copy_to_clipboard`: joins the item texts
(single-speaker) or the `Speaker <id>: <text>` strings (multi-speaker) with
spaces and writes the clipboard. -/
def SpeechToText.copy_to_clipboard (st : SpeechToText) : List Effect :=
  let items := st.transcriber_result.getD []
  let text_to_copy :=
    if st.single_speaker then
      String.intercalate " " (items.map (·.text))
    else
      String.intercalate " "
        (items.map fun it => "Speaker " ++ pyStrOpt it.speaker ++ ": " ++ it.text)
  [Effect.clipboardWrite text_to_copy]

/-- `SpeechToText.process_transcription`: stores the transcript, selects
sentences (single-speaker) or utterances as `transcriber_result`, retrieves
the summary when requested and present, and calls `save_to_text_file`.
Note: despite its comment "Save to file and copy to clipboard", the method
body only calls `save_to_text_file`. -/
def SpeechToText.process_transcription (st : SpeechToText) (t : Transcript)
    (nowDate nowStamp home : String) : SpeechToText × List Effect :=
  let st := { st with transcript := some t }
  let result := if st.single_speaker then t.sentences else t.utterances
  let st := { st with transcriber_result := some result }
  let st :=
    if st.summarization && pyTruthy t.summary then
      { st with summarization_result := t.summary }
    else st
  (st, st.save_to_text_file nowDate nowStamp home)

/-- `SpeechToText.speech_to_text`: the complete pipeline, `transcribe`
followed by `process_transcription`; exceptions are re-raised unchanged. -/
def SpeechToText.speech_to_text (st : SpeechToText) (env_key : Option String)
    (service : String → TranscriptionConfig → Transcript)
    (nowDate nowStamp home : String) :
    Except PyError SpeechToText × List Effect :=
  match st.transcribe env_key service with
  | (Except.error e, effs) => (Except.error e, effs)
  | (Except.ok (st, t), effs) =>
      let r := st.process_transcription t nowDate nowStamp home
      (Except.ok r.1, effs ++ r.2)

/-- The open file object returned by `tkinter.filedialog.askopenfile`:
the code only reads its `.name` (the chosen file's absolute path). -/
structure OpenedFile where
  name : String
deriving DecidableEq, Repr, Inhabited

/-- `gui_select_file.select_file`: returns
`filedialog.askopenfile(initialdir=..., defaultextension=None).name`.
When the dialog is cancelled `askopenfile` returns `None`, so the attribute
access `.name` raises `AttributeError`. -/
def select_file (dialog : Option OpenedFile) : Except PyError String :=
  match dialog with
  | some f => Except.ok f.name
  | none => Except.error (PyError.attributeError
      "NoneType object has no attribute name")

/-! Shared sample data used by the concrete witnesses and counterexamples. -/

/-- A filesystem listing containing one audio file. -/
def sampleFs : List String := ["/u/rec.mp3"]

/-- A default-constructed instance on that file (as `main` builds it). -/
def sampleSt : SpeechToText :=
  (SpeechToText.initDefault sampleFs "/u/rec.mp3").1.toOption.getD default

/-- A successfully completed transcript with two items. -/
def okTranscript : Transcript :=
  { status := TranscriptStatus.completed
    error := none
    sentences := [{ speaker := some "A", text := "Hello there." },
                  { speaker := some "B", text := "Hi." }]
    utterances := [{ speaker := some "A", text := "Hello there." },
                   { speaker := some "B", text := "Hi." }]
    summary := none }

/-- A remote service that always completes successfully. -/
def okService : String → TranscriptionConfig → Transcript := fun _ _ => okTranscript

/-- A remote service that always reports an error status. -/
def errService : String → TranscriptionConfig → Transcript := fun _ _ =>
  { status := TranscriptStatus.error
    error := some "bad audio"
    sentences := []
    utterances := []
    summary := none }

/-- A complete successful pipeline run on the sample instance. -/
def sampleRun : Except PyError SpeechToText × List Effect :=
  sampleSt.speech_to_text (some "key") okService
    "2025-01-25 12:00:00" "20250125_120000" "/home/u"

/-! Helper lemmas. -/

/-- Strings sharing a prefix and a suffix and equal as a whole have equal
middles. -/
theorem string_append_middle_inj (a m1 m2 b : String)
    (h : a ++ (m1 ++ b) = a ++ (m2 ++ b)) : m1 = m2 := by
  have hd := congrArg String.data h
  simp only [String.data_append] at hd
  have h1 := List.append_cancel_left hd
  have h2 := List.append_cancel_right h1
  cases m1
  cases m2
  exact congrArg String.mk h2

set_option maxRecDepth 4000

/-! Claim theorems. -/

/-- C1: contrary to the claim (and to the method's own docstring
"transcribe, process, save, and copy to clipboard"), a successful run of
`speech_to_text` writes the output file but never writes the clipboard:
`process_transcription` only calls `save_to_text_file`.  Evaluated on a
concrete successful run: the run succeeds, its trace contains a file write
and contains no clipboard write. -/
theorem c1_pipeline_writes_file_but_not_clipboard :
    sampleRun.1.isOk = true
    ∧ sampleRun.2.any Effect.isFileWrite = true
    ∧ sampleRun.2.any Effect.isClipboardWrite = false := by decide

/-- C2: when the API key is absent from both the argument position (which
`transcribe` never fills) and the environment, `transcribe` raises the
configuration `RuntimeError` and its effect trace contains zero service
calls. -/
theorem c2_missing_api_key_zero_service_calls (st : SpeechToText)
    (service : String → TranscriptionConfig → Transcript)
    (env_key : Option String) (h : env_key = none) :
    (st.transcribe env_key service).1 =
      Except.error (PyError.runtimeError
        "API key not found in environment variables or provided as argument.")
    ∧ (st.transcribe env_key service).2.countP Effect.isServiceCall = 0 := by
  subst h
  unfold SpeechToText.transcribe SpeechToText.configuration
  simp [pyOr, pyTruthy]

theorem c2_witness :
    (sampleSt.transcribe none okService).1 =
      Except.error (PyError.runtimeError
        "API key not found in environment variables or provided as argument.")
    ∧ (sampleSt.transcribe none okService).2.countP Effect.isServiceCall = 0 :=
  c2_missing_api_key_zero_service_calls sampleSt okService none rfl

/-- C3: when the remote service reports an error status, the pipeline
raises and its trace contains no file write and no clipboard write. -/
theorem c3_error_status_no_output (st : SpeechToText) (env_key : Option String)
    (service : String → TranscriptionConfig → Transcript)
    (nowDate nowStamp home : String)
    (h : ∀ path config, (service path config).status = TranscriptStatus.error) :
    (∃ e, (st.speech_to_text env_key service nowDate nowStamp home).1 = Except.error e)
    ∧ (st.speech_to_text env_key service nowDate nowStamp home).2.filter
        Effect.isFileWrite = []
    ∧ (st.speech_to_text env_key service nowDate nowStamp home).2.filter
        Effect.isClipboardWrite = [] := by
  unfold SpeechToText.speech_to_text SpeechToText.transcribe
  cases hcfg : st.configuration none env_key with
  | error e => simp [hcfg]
  | ok config => simp [hcfg, h st.path_to_file config, Effect.isFileWrite,
      Effect.isClipboardWrite]

theorem c3_witness :
    (∃ e, (sampleSt.speech_to_text (some "key") errService
      "2025-01-25 12:00:00" "20250125_120000" "/home/u").1 = Except.error e)
    ∧ (sampleSt.speech_to_text (some "key") errService
        "2025-01-25 12:00:00" "20250125_120000" "/home/u").2.filter
        Effect.isFileWrite = []
    ∧ (sampleSt.speech_to_text (some "key") errService
        "2025-01-25 12:00:00" "20250125_120000" "/home/u").2.filter
        Effect.isClipboardWrite = [] :=
  c3_error_status_no_output sampleSt (some "key") errService
    "2025-01-25 12:00:00" "20250125_120000" "/home/u" (fun _ _ => rfl)

/-- C4: in single-speaker mode the content section has exactly one line per
sentence, and line `i` is exactly the text of sentence `i`. -/
theorem c4_single_speaker_content_verbatim (st : SpeechToText)
    (items : List SpeechItem) (h1 : st.single_speaker = true)
    (h2 : st.transcriber_result = some items) :
    st.contentSection.length = items.length
    ∧ ∀ i : Nat, st.contentSection[i]? = (items[i]?).map SpeechItem.text := by
  unfold SpeechToText.contentSection
  rw [h1, h2]
  constructor
  · simp
  · intro i
    rcases hi : items[i]? with _ | u <;>
      simp [List.getElem?_map, hi, contentLine]

/-- The sample instance in single-speaker mode with its result loaded. -/
def sampleStSingle : SpeechToText :=
  { sampleSt with
    single_speaker := true
    transcriber_result := some okTranscript.sentences }

theorem c4_witness :
    sampleStSingle.contentSection.length = okTranscript.sentences.length
    ∧ ∀ i : Nat, sampleStSingle.contentSection[i]? =
        (okTranscript.sentences[i]?).map SpeechItem.text :=
  c4_single_speaker_content_verbatim sampleStSingle okTranscript.sentences rfl rfl

/-- C5: in multi-speaker mode each content line is the utterance's text
prefixed with `Speaker <id>: `, one line per utterance, in order. -/
theorem c5_multi_speaker_content_prefixed (st : SpeechToText)
    (items : List SpeechItem) (h1 : st.single_speaker = false)
    (h2 : st.transcriber_result = some items) :
    st.contentSection.length = items.length
    ∧ ∀ i : Nat, ∀ u : SpeechItem, ∀ sp : String,
        items[i]? = some u → u.speaker = some sp →
        st.contentSection[i]? = some ("Speaker " ++ sp ++ ": " ++ u.text) := by
  unfold SpeechToText.contentSection
  rw [h1, h2]
  constructor
  · simp
  · intro i u sp hu hsp
    simp [contentLine, hu, hsp, pyStrOpt]

/-- The sample instance in multi-speaker mode with its result loaded. -/
def sampleStMulti : SpeechToText :=
  { sampleSt with
    single_speaker := false
    transcriber_result := some okTranscript.utterances }

theorem c5_witness :
    sampleStMulti.contentSection.length = okTranscript.utterances.length
    ∧ ∀ i : Nat, ∀ u : SpeechItem, ∀ sp : String,
        okTranscript.utterances[i]? = some u → u.speaker = some sp →
        sampleStMulti.contentSection[i]? =
          some ("Speaker " ++ sp ++ ": " ++ u.text) :=
  c5_multi_speaker_content_prefixed sampleStMulti okTranscript.utterances rfl rfl

/-- C6: constructing an instance on a path that does not exist raises
`FileNotFoundError`, and the constructor's effect trace is empty (no output
artifact is created). -/
theorem c6_missing_file_construction_fails (fs : List String)
    (path language : String) (single_speaker speaker_labels summarization : Bool)
    (summarization_model summarization_type : String)
    (summarization_question : Option String) (h : fs.contains path = false) :
    (SpeechToText.init fs path language single_speaker speaker_labels
        summarization summarization_model summarization_type
        summarization_question).1 =
      Except.error (PyError.fileNotFound ("Audio file not found: " ++ path))
    ∧ (SpeechToText.init fs path language single_speaker speaker_labels
        summarization summarization_model summarization_type
        summarization_question).2 = [] := by
  have hmem : ¬ path ∈ fs := by simpa using h
  unfold SpeechToText.init
  simp [hmem]

theorem c6_witness :
    (SpeechToText.init sampleFs "/u/missing.mp3" DEFAULT_LANGUAGE false
        DEFAULT_SPEAKER_LABELS DEFAULT_SUMMARIZATION DEFAULT_SUMMARIZATION_MODEL
        DEFAULT_SUMMARIZATION_TYPE DEFAULT_SUMMARIZATION_QUESTION).1 =
      Except.error (PyError.fileNotFound "Audio file not found: /u/missing.mp3")
    ∧ (SpeechToText.init sampleFs "/u/missing.mp3" DEFAULT_LANGUAGE false
        DEFAULT_SPEAKER_LABELS DEFAULT_SUMMARIZATION DEFAULT_SUMMARIZATION_MODEL
        DEFAULT_SUMMARIZATION_TYPE DEFAULT_SUMMARIZATION_QUESTION).2 = [] :=
  c6_missing_file_construction_fails sampleFs "/u/missing.mp3" DEFAULT_LANGUAGE
    false DEFAULT_SPEAKER_LABELS DEFAULT_SUMMARIZATION
    DEFAULT_SUMMARIZATION_MODEL DEFAULT_SUMMARIZATION_TYPE
    DEFAULT_SUMMARIZATION_QUESTION rfl

/-- C7: `select_file` does return the chosen file's path when one is picked,
but contrary to the claim, cancelling the dialog does not yield an
empty/absent result: `askopenfile` returns `None` and the `.name` access
raises `AttributeError`. -/
theorem c7_select_file_cancel_raises :
    (∀ f : OpenedFile, select_file (some f) = Except.ok f.name)
    ∧ select_file none =
        Except.error (PyError.attributeError
          "NoneType object has no attribute name") :=
  ⟨fun _ => rfl, rfl⟩

/-- First of two pipeline runs on the same source file, both falling into
the same clock second `20250125_120000`. -/
def c8RunFirst : Except PyError SpeechToText × List Effect :=
  sampleSt.speech_to_text (some "key") okService
    "2025-01-25 12:00:00" "20250125_120000" "/home/u"

/-- Second run on the same source file within the same clock second. -/
def c8RunSecond : Except PyError SpeechToText × List Effect :=
  sampleSt.speech_to_text (some "key") okService
    "2025-01-25 12:00:00" "20250125_120000" "/home/u"

/-- C8 counterexample: the timestamp has one-second granularity, so two runs
on the same source file within the same second write the very same path —
the file names are not distinct and the second run's `open(..., 'w')`
overwrites the first run's file. -/
theorem c8_counterexample_same_second_collision :
    writtenPaths c8RunFirst.2 = ["/home/u/Transcription/rec_20250125_120000.txt"]
    ∧ writtenPaths c8RunSecond.2 =
        ["/home/u/Transcription/rec_20250125_120000.txt"] := by decide

/-- C8 (amended): two runs on the same source file whose save timestamps
differ produce output file names of the shared shape
`<stem>_<timestamp>.txt` — distinct, and differing only in the timestamp —
so neither overwrites the other. -/
theorem c8_distinct_timestamps_distinct_files (stem ts1 ts2 : String)
    (h : ts1 ≠ ts2) :
    outputFilename stem ts1 = (stem ++ "_") ++ (ts1 ++ ".txt")
    ∧ outputFilename stem ts2 = (stem ++ "_") ++ (ts2 ++ ".txt")
    ∧ outputFilename stem ts1 ≠ outputFilename stem ts2 := by
  refine ⟨rfl, rfl, fun heq => h ?_⟩
  exact string_append_middle_inj (stem ++ "_") ts1 ts2 ".txt" heq

theorem c8_witness :
    outputFilename "rec" "20250125_120000" =
      ("rec" ++ "_") ++ ("20250125_120000" ++ ".txt")
    ∧ outputFilename "rec" "20250125_120001" =
      ("rec" ++ "_") ++ ("20250125_120001" ++ ".txt")
    ∧ outputFilename "rec" "20250125_120000" ≠
        outputFilename "rec" "20250125_120001" :=
  c8_distinct_timestamps_distinct_files "rec" "20250125_120000"
    "20250125_120001" (by decide)

/-- C9 counterexample: the saved rendering embeds the wall-clock date
(`Transcription date: ...`), so two runs on the identical transcription
result, mode flag and configuration but at different clock readings produce
different rendered text — formatting is not a function of the claimed
inputs alone. -/
theorem c9_counterexample_clock_changes_output :
    sampleStMulti.renderedFile "2025-01-25 12:00:00" ≠
      sampleStMulti.renderedFile "2025-01-25 12:00:01" := by decide

/-- C9 (amended): the rendered text is a deterministic function of the
transcription result, the mode flag, the configuration fields it prints
(language, source path), the summary and additionally the clock reading
embedded in the metadata: two runs agreeing on all of these render
identical text. -/
theorem c9_rendering_deterministic_given_clock (st1 st2 : SpeechToText)
    (d1 d2 : String)
    (hres : st1.transcriber_result = st2.transcriber_result)
    (hmode : st1.single_speaker = st2.single_speaker)
    (hlang : st1.language = st2.language)
    (hpath : st1.path_to_file = st2.path_to_file)
    (hsum : st1.summarization_result = st2.summarization_result)
    (hdate : d1 = d2) :
    st1.renderedFile d1 = st2.renderedFile d2 := by
  unfold SpeechToText.renderedFile SpeechToText.renderedPre
    SpeechToText.renderedPost SpeechToText.contentSection
  rw [hres, hmode, hlang, hpath, hsum, hdate]

theorem c9_witness :
    sampleStMulti.renderedFile "2025-01-25 12:00:00" =
      sampleStMulti.renderedFile "2025-01-25 12:00:00" :=
  c9_rendering_deterministic_given_clock sampleStMulti sampleStMulti
    "2025-01-25 12:00:00" "2025-01-25 12:00:00" rfl rfl rfl rfl rfl rfl

/-- C10: a default construction (no explicit overrides) stores language
"ru", speaker labels enabled and summarization disabled, and any
transcription configuration built from it carries language code "ru",
speaker labels enabled and no summarization key. -/
theorem c10_default_request_configuration (fs : List String) (path : String)
    (st : SpeechToText)
    (h : (SpeechToText.initDefault fs path).1 = Except.ok st) :
    st.language = "ru" ∧ st.speaker_labels = true ∧ st.summarization = false
    ∧ ∀ key : Option String, ∀ config : TranscriptionConfig,
        st.configuration none key = Except.ok config →
        config.language_code = "ru" ∧ config.speaker_labels = true
        ∧ config.summarization = none := by
  unfold SpeechToText.initDefault SpeechToText.init at h
  split at h
  · simp only [Except.ok.injEq] at h
    subst h
    refine ⟨rfl, rfl, rfl, ?_⟩
    intro key config hc
    unfold SpeechToText.configuration at hc
    cases hk : pyTruthy (pyOr none key) with
    | false => simp [hk] at hc
    | true =>
        simp only [hk, if_true] at hc
        simp only [Except.ok.injEq] at hc
        subst hc
        exact ⟨rfl, rfl, rfl⟩
  · exact absurd h (by simp)

/-- The default-constructed sample instance, extracted for the witness. -/
def sampleStOk : SpeechToText :=
  (SpeechToText.initDefault sampleFs "/u/rec.mp3").1.toOption.getD default

theorem c10_witness :
    sampleStOk.language = "ru" ∧ sampleStOk.speaker_labels = true
    ∧ sampleStOk.summarization = false
    ∧ ∀ key : Option String, ∀ config : TranscriptionConfig,
        sampleStOk.configuration none key = Except.ok config →
        config.language_code = "ru" ∧ config.speaker_labels = true
        ∧ config.summarization = none :=
  c10_default_request_configuration sampleFs "/u/rec.mp3" sampleStOk rfl

end AAI
